import Mathlib

/-!
Verification development for the SNTPv4 client (NTPClient / NTPMessageTransport).

The C++ sources are shallowly embedded:
* machine integers become `Nat` (with explicit `% 2^w` or masking where the
  source narrows a value),
* IEEE doubles become `ℚ` (the source only adds, subtracts, multiplies and
  divides values that are exactly representable at the scales involved),
* `errno` codes become the inductive type `Errno`,
* the datagram channel and the transport callback become explicit function
  parameters, and output pointers become explicit returned values.
-/

namespace SNTP

/-- POSIX-style errno values actually assigned by the sources
(`ntpclient.cpp`, `MessageTransport.cpp`). -/
inductive Errno where
  | EINVAL
  | ENETDOWN
  | EISCONN
  | EADDRNOTAVAIL
  | EOVERFLOW
  | EIO
  | EPROTONOSUPPORT
  | EOPNOTSUPP
  | ENODATA
  | EPFNOSUPPORT
  | EAGAIN
  | EBADMSG
deriving DecidableEq, Repr

/-- Model of `struct ntp_packet` from `MessageTransport.h` (48 wire bytes).
`tstamp32_t`/`tstamp64_t` fields are kept as `Nat` holding the raw
(network-byte-order) integer value, exactly as the C code stores them. -/
structure ntp_packet where
  li_vn_mode : Nat
  stratum    : Nat
  ppoll      : Int
  precision  : Int
  rootdelay  : Nat
  rootdisp   : Nat
  refid      : Nat
  reftime    : Nat
  org        : Nat
  rec_ts     : Nat  -- source field name `rec` (Lean reserves `rec` for the recursor)
  xmt        : Nat
deriving DecidableEq, Repr

/-- Value of `sizeof(struct ntp_packet)`: 1+1+1+1+4+4+4+8+8+8+8 = 48 bytes. -/
def NTP_PACKET_SIZE : Nat := 48

/-- The all-zero packet, i.e. the result of
`memset(packet, 0, sizeof(ntp_packet))`. -/
def zero_packet : ntp_packet :=
  ⟨0, 0, 0, 0, 0, 0, 0, 0, 0, 0, 0⟩

-- Bit constants from NTPClient::on_wire_exchange (ntpclient.cpp).
def LEAP_NO_WARNING : Nat := 0b00000000
def NTP_VERSION_4 : Nat := 0b00100000
def MODE_CLIENT : Nat := 0b00000011
def MODE_MASK : Nat := 0b00000111
def MODE_SERVER : Nat := 0b00000100
def PROTOCOL_MASK : Nat := 0b00111000
def LEAP_MASK : Nat := 0b11000000
def LEAP_ALARM_CONDITION : Nat := 0b11000000

/-- Engine timeout constant of `NTPClient::on_wire_exchange`
(`constexpr unsigned long TIMEOUT = 1024UL`). -/
def TIMEOUT : Nat := 1024

/-- Constant `ERA_OFFSET0_1_JAN_1970` from `ntpclient.h`. -/
def ERA_OFFSET0_1_JAN_1970 : Nat := 2208988800

/-- Request construction part of `NTPClient::on_wire_exchange`
(ntpclient.cpp lines 183–186): back up `xmt`, `memset` the whole packet
to zero, set `li_vn_mode`, restore `xmt`. -/
def buildRequest (packet : ntp_packet) : ntp_packet :=
  let xmt_bak := packet.xmt
  let cleared := zero_packet
  let cleared := { cleared with li_vn_mode := LEAP_NO_WARNING ||| NTP_VERSION_4 ||| MODE_CLIENT }
  { cleared with xmt := xmt_bak }

/-- Reply-validation chain of `NTPClient::on_wire_exchange`
(ntpclient.cpp lines 200–250), as a pure function from the received packet
and the backed-up transmit timestamp to the assigned errno
(`none` = the reply is accepted).  The `stratum == 0` branch additionally
prints the kiss code; printing is modelled separately (`printKissCode`). -/
def validate (packet : ntp_packet) (xmt_bak : Nat) : Option Errno :=
  if packet.li_vn_mode &&& MODE_MASK ≠ MODE_SERVER then
    some Errno.EOPNOTSUPP
  else if packet.li_vn_mode &&& PROTOCOL_MASK ≠ NTP_VERSION_4 then
    some Errno.EPROTONOSUPPORT
  else if packet.li_vn_mode &&& LEAP_MASK = LEAP_ALARM_CONDITION then
    some Errno.ENODATA
  else if 15 < packet.stratum then
    some Errno.EPFNOSUPPORT
  else if packet.stratum = 0 then
    some Errno.EAGAIN
  else if xmt_bak ≠ packet.org then
    some Errno.EBADMSG
  else
    none

/-- Model of `NTPClient::on_wire_exchange` (ntpclient.cpp lines 167–251), with the
transport call `_ntp.packetExchange(packet, TIMEOUT)` abstracted as a
function from the request packet to either an errno or the reply packet
that the transport writes back into the caller buffer. -/
def on_wire_exchange (packetExchange : ntp_packet → Except Errno ntp_packet)
    (packet : ntp_packet) : Except Errno ntp_packet :=
  let xmt_bak := packet.xmt
  let req := buildRequest packet
  match packetExchange req with
  | Except.error e => Except.error e
  | Except.ok reply =>
    match validate reply xmt_bak with
    | some e => Except.error e
    | none => Except.ok reply

/-- Round-trip delay formula of `NTPClient::time` (ntpclient.cpp line 98):
`double roundtrip_delay = (t4d - t1d) - (t3d - t2d)`. -/
def roundtrip_delay (t1d t2d t3d t4d : ℚ) : ℚ :=
  (t4d - t1d) - (t3d - t2d)

/-- Clock offset formula of `NTPClient::time` (ntpclient.cpp line 99):
`double clock_offset = ((t2d - t1d) + (t3d - t4d)) / 2.0`. -/
def clock_offset (t1d t2d t3d t4d : ℚ) : ℚ :=
  ((t2d - t1d) + (t3d - t4d)) / 2

end SNTP

namespace SNTP

/-- Claim C7: before sending, `on_wire_exchange` zeroes every field of the
request packet except `xmt`: the built request has `li_vn_mode` equal to the
fixed pattern 00·100·011 (= 0x23: leap no-warning, version 4, mode client),
the caller-supplied `xmt` exactly as given, and every other field zero —
no field of a previously used packet survives. -/
theorem request_built_all_zero_except_livnmode_and_xmt (p : ntp_packet) :
    buildRequest p =
      { li_vn_mode := 0x23, stratum := 0, ppoll := 0, precision := 0,
        rootdelay := 0, rootdisp := 0, refid := 0, reftime := 0,
        org := 0, rec_ts := 0, xmt := p.xmt } := by
  rfl

/-- Claim C2: the engine computes
`roundtrip_delay = (T4 - T1) - (T3 - T2)` and
`clock_offset = ((T2 - T1) + (T3 - T4)) / 2`; in particular, at
T1 = 1000.0, T2 = 1000.5, T3 = 1000.6, T4 = 1001.0 these give 0.9 and 0.05. -/
theorem offset_delay_formula :
    (∀ t1 t2 t3 t4 : ℚ,
        roundtrip_delay t1 t2 t3 t4 = (t4 - t1) - (t3 - t2) ∧
        clock_offset t1 t2 t3 t4 = ((t2 - t1) + (t3 - t4)) / 2) ∧
      roundtrip_delay 1000 1000.5 1000.6 1001 = 0.9 ∧
      clock_offset 1000 1000.5 1000.6 1001 = 0.05 := by
  refine ⟨fun t1 t2 t3 t4 => ⟨rfl, rfl⟩, ?_, ?_⟩ <;>
    · simp only [roundtrip_delay, clock_offset]
      norm_num

end SNTP

namespace SNTP

/-- Spec §4.3 step 3, check (a): the reply mode field is not `server`. -/
def failsModeCheck (r : ntp_packet) : Bool :=
  r.li_vn_mode &&& MODE_MASK ≠ MODE_SERVER

/-- Spec §4.3 step 3, check (b): the reply version field differs from the
version the client sent (version 4). -/
def failsVersionCheck (r : ntp_packet) : Bool :=
  r.li_vn_mode &&& PROTOCOL_MASK ≠ NTP_VERSION_4

/-- Spec §4.3 step 3, check (c): leap indicator = alarm condition. -/
def failsLeapCheck (r : ntp_packet) : Bool :=
  r.li_vn_mode &&& LEAP_MASK = LEAP_ALARM_CONDITION

/-- Spec §4.3 step 3, check (d): stratum in the reserved range 16–255. -/
def failsStratumRangeCheck (r : ntp_packet) : Bool :=
  15 < r.stratum

/-- Spec §4.3 step 3, check (e): stratum 0 (kiss-of-death reply). -/
def failsStratumZeroCheck (r : ntp_packet) : Bool :=
  r.stratum = 0

/-- Spec §4.3 step 3, check (f): the reply originate timestamp differs from
the transmit timestamp T1 that the client sent. -/
def failsOriginateCheck (r : ntp_packet) (xmt_bak : Nat) : Bool :=
  xmt_bak ≠ r.org

/-- Modelled from the spec (§4.3 step 3): the ordered list of validation
checks, each paired with its distinct failure reason, in the documented
priority order (a)–(f). -/
def orderedChecks (r : ntp_packet) (xmt_bak : Nat) : List (Bool × Errno) :=
  [ (failsModeCheck r, Errno.EOPNOTSUPP),
    (failsVersionCheck r, Errno.EPROTONOSUPPORT),
    (failsLeapCheck r, Errno.ENODATA),
    (failsStratumRangeCheck r, Errno.EPFNOSUPPORT),
    (failsStratumZeroCheck r, Errno.EAGAIN),
    (failsOriginateCheck r xmt_bak, Errno.EBADMSG) ]

/-- Modelled from the spec: the failure reason of the FIRST failing check in
the priority order, `none` when every check passes.  Any failing check
short-circuits all later ones by construction of `List.find?`. -/
def firstFailure (r : ntp_packet) (xmt_bak : Nat) : Option Errno :=
  (List.find? (fun c => c.1) (orderedChecks r xmt_bak)).map (fun c => c.2)

/-- Claim C1: the failure reported by the reply validation of
`on_wire_exchange` is exactly the first failing check in the fixed priority
order mode (EOPNOTSUPP) → version (EPROTONOSUPPORT) → leap alarm (ENODATA) →
stratum > 15 (EPFNOSUPPORT) → stratum = 0 (EAGAIN) → originate-timestamp
mismatch (EBADMSG); any failing check short-circuits all later checks. -/
theorem validation_order_first_failure (r : ntp_packet) (xmt_bak : Nat) :
    validate r xmt_bak = firstFailure r xmt_bak := by
  simp only [validate, firstFailure, orderedChecks, failsModeCheck,
    failsVersionCheck, failsLeapCheck, failsStratumRangeCheck,
    failsStratumZeroCheck, failsOriginateCheck]
  by_cases h1 : r.li_vn_mode &&& MODE_MASK = MODE_SERVER <;>
    by_cases h2 : r.li_vn_mode &&& PROTOCOL_MASK = NTP_VERSION_4 <;>
      by_cases h3 : r.li_vn_mode &&& LEAP_MASK = LEAP_ALARM_CONDITION <;>
        by_cases h4 : 15 < r.stratum <;>
          by_cases h5 : r.stratum = 0 <;>
            by_cases h6 : xmt_bak = r.org <;>
              simp [h1, h2, h3, h4, h5, h6, List.find?]

end SNTP

namespace SNTP

/-- Claim C4: every reply with stratum 0 that reaches the stratum check
(i.e. passes the mode, version, leap-alarm and stratum-range checks) makes
`on_wire_exchange` fail with EAGAIN (TemporarilyUnavailable), for every
possible value of all other fields — in particular for every reference-id
value, whether or not it matches a kiss-code table entry. -/
theorem stratum_zero_fails_eagain
    (pe : ntp_packet → Except Errno ntp_packet) (p r : ntp_packet)
    (hpe : pe (buildRequest p) = Except.ok r)
    (hmode : r.li_vn_mode &&& MODE_MASK = MODE_SERVER)
    (hver : r.li_vn_mode &&& PROTOCOL_MASK = NTP_VERSION_4)
    (hleap : r.li_vn_mode &&& LEAP_MASK ≠ LEAP_ALARM_CONDITION)
    (hrange : r.stratum ≤ 15)
    (hzero : r.stratum = 0) :
    on_wire_exchange pe p = Except.error Errno.EAGAIN := by
  simp only [on_wire_exchange, hpe, validate, hmode, hver, hleap, hzero]
  simp [Nat.not_lt.mpr hrange]

/-- Witness for C4: a concrete kiss-of-death reply (mode server, version 4,
leap 0, stratum 0, an arbitrary non-table reference id, well-formed
timestamps echoing T1) is rejected with EAGAIN. -/
theorem stratum_zero_fails_eagain_witness :
    on_wire_exchange
      (fun _ =>
        Except.ok { zero_packet with
          li_vn_mode := 0x24, stratum := 0, refid := 0x52415445,
          org := 77, rec_ts := 5, xmt := 6 })
      { zero_packet with xmt := 77 }
      = Except.error Errno.EAGAIN := by
  exact stratum_zero_fails_eagain _ _ _ rfl (by decide) (by decide) (by decide)
    (by decide) (by decide)

/-- Claim C5: a reply whose originate timestamp is not bit-for-bit equal to
the transmit timestamp T1 the client actually sent is rejected with EBADMSG
(BadMessage) even when every other validation check passes. -/
theorem originate_mismatch_fails_ebadmsg
    (pe : ntp_packet → Except Errno ntp_packet) (p r : ntp_packet)
    (hpe : pe (buildRequest p) = Except.ok r)
    (hmode : r.li_vn_mode &&& MODE_MASK = MODE_SERVER)
    (hver : r.li_vn_mode &&& PROTOCOL_MASK = NTP_VERSION_4)
    (hleap : r.li_vn_mode &&& LEAP_MASK ≠ LEAP_ALARM_CONDITION)
    (hrange : r.stratum ≤ 15)
    (hzero : r.stratum ≠ 0)
    (horg : r.org ≠ p.xmt) :
    on_wire_exchange pe p = Except.error Errno.EBADMSG := by
  have horg2 : p.xmt ≠ r.org := fun h => horg h.symm
  simp only [on_wire_exchange, hpe, validate, hmode, hver, hleap]
  simp [Nat.not_lt.mpr hrange, hzero, horg2]

/-- Witness for C5: sending T1 = 1000 and receiving an otherwise perfectly
valid reply carrying org = 1001 (= T1 + 1) fails with EBADMSG. -/
theorem originate_mismatch_fails_ebadmsg_witness :
    on_wire_exchange
      (fun _ =>
        Except.ok { zero_packet with
          li_vn_mode := 0x24, stratum := 2, org := 1001,
          rec_ts := 5, xmt := 6 })
      { zero_packet with xmt := 1000 }
      = Except.error Errno.EBADMSG := by
  exact originate_mismatch_fails_ebadmsg _ _ _ rfl (by decide) (by decide)
    (by decide) (by decide) (by decide) (by decide)

end SNTP

namespace SNTP

/-- Constant `FRIC` from `MessageTransport.h`: 2^16 as a real constant. -/
def FRIC : ℚ := 65536

/-- Constant `FRAC` from `MessageTransport.h`: 2^32 as a real constant. -/
def FRAC : ℚ := 4294967296

/-- Functions `htons`/`ntohs` on the little-endian target: swap the two bytes of a
16-bit value (an input wider than 16 bits is first narrowed, as the C
`uint16_t` argument type does). -/
def byteswap16 (x : Nat) : Nat :=
  (x % 256) * 256 + (x / 256) % 256

/-- Functions `htonl`/`ntohl` on the little-endian target: reverse the four bytes of a
32-bit value (an input wider than 32 bits is first narrowed, as the C
`uint32_t` argument type does). -/
def byteswap32 (x : Nat) : Nat :=
  (x % 256) * 16777216 + (x / 256 % 256) * 65536 +
    (x / 65536 % 256) * 256 + (x / 16777216) % 256

/-- Model of `NTPMessageTransport::getFraction(tstamp32_t)` (little-endian branch):
`ntohs((uint16_t)((ts >> 16) & 0xffff)) / FRIC`. -/
def getFraction32 (ts : Nat) : ℚ :=
  ((byteswap16 ((ts >>> 16) &&& 0xffff) : ℕ) : ℚ) / FRIC

/-- Model of `NTPMessageTransport::getFraction(tstamp64_t)` (little-endian branch):
`ntohl((uint32_t)((ts >> 32) & 0xffffffff)) / FRAC`. -/
def getFraction64 (ts : Nat) : ℚ :=
  ((byteswap32 ((ts >>> 32) &&& 0xffffffff) : ℕ) : ℚ) / FRAC

/-- Model of `NTPMessageTransport::getSeconds(tstamp32_t)` (little-endian branch):
`ntohs((uint16_t)((ts >> 00) & 0xffff))`. -/
def getSeconds32 (ts : Nat) : Nat :=
  byteswap16 ((ts >>> 0) &&& 0xffff)

/-- Model of `NTPMessageTransport::getSeconds(tstamp64_t)` (little-endian branch):
`ntohl((uint32_t)((ts >> 00) & 0xffffffff))`. -/
def getSeconds64 (ts : Nat) : Nat :=
  byteswap32 ((ts >>> 0) &&& 0xffffffff)

/-- Model of `NTPMessageTransport::generateTstamp(tstamp32_t*, ...)` (little-endian
branch): `raw = (uint16_t)(fric * FRIC)` (C double→uint16 conversion
truncates; the `% 2^16` makes the narrowing explicit), then
`*dst = (uint32_t)htons(secs) | ((uint32_t)htons(raw) << 16)`. -/
def generateTstamp32 (secs : Nat) (fric : ℚ) : Nat :=
  let raw : Nat := (Int.toNat ⌊fric * FRIC⌋) % 2 ^ 16
  byteswap16 secs ||| (byteswap16 raw <<< 16)

/-- Model of `NTPMessageTransport::generateTstamp(tstamp64_t*, ...)` (little-endian
branch): `raw = (uint32_t)(frac * FRAC)`, then
`*dst = (uint64_t)htonl(secs) | ((uint64_t)htonl(raw) << 32)`. -/
def generateTstamp64 (secs : Nat) (frac : ℚ) : Nat :=
  let raw : Nat := (Int.toNat ⌊frac * FRAC⌋) % 2 ^ 32
  byteswap32 secs ||| (byteswap32 raw <<< 32)

lemma byteswap16_lt (x : Nat) : byteswap16 x < 65536 := by
  unfold byteswap16; omega

lemma byteswap16_involutive (x : Nat) (h : x < 65536) :
    byteswap16 (byteswap16 x) = x := by
  unfold byteswap16
  have h1 : (x % 256 * 256 + x / 256 % 256) % 256 = x / 256 % 256 := by omega
  have h2 : (x % 256 * 256 + x / 256 % 256) / 256 = x % 256 := by omega
  rw [h1, h2]
  omega

lemma byteswap32_lt (x : Nat) : byteswap32 x < 4294967296 := by
  unfold byteswap32; omega

lemma bytes32_lowfirst (a b c d : Nat) (ha : a < 256) (hb : b < 256)
    (hc : c < 256) (hd : d < 256) :
    (a + 256 * b + 65536 * c + 16777216 * d) % 256 = a ∧
      (a + 256 * b + 65536 * c + 16777216 * d) / 256 % 256 = b ∧
      (a + 256 * b + 65536 * c + 16777216 * d) / 65536 % 256 = c ∧
      (a + 256 * b + 65536 * c + 16777216 * d) / 16777216 % 256 = d :=
  ⟨by omega, by omega, by omega, by omega⟩

lemma bytes32_highfirst (a b c d : Nat) (ha : a < 256) (hb : b < 256)
    (hc : c < 256) (hd : d < 256) :
    (a * 16777216 + b * 65536 + c * 256 + d) % 256 = d ∧
      (a * 16777216 + b * 65536 + c * 256 + d) / 256 % 256 = c ∧
      (a * 16777216 + b * 65536 + c * 256 + d) / 65536 % 256 = b ∧
      (a * 16777216 + b * 65536 + c * 256 + d) / 16777216 % 256 = a :=
  ⟨by omega, by omega, by omega, by omega⟩

lemma byteswap32_involutive (x : Nat) (h : x < 4294967296) :
    byteswap32 (byteswap32 x) = x := by
  obtain ⟨a, b, c, d, ha, hb, hc, hd, hx⟩ :
      ∃ a b c d, a < 256 ∧ b < 256 ∧ c < 256 ∧ d < 256 ∧
        x = a + 256 * b + 65536 * c + 16777216 * d :=
    ⟨x % 256, x / 256 % 256, x / 65536 % 256, x / 16777216,
      by omega, by omega, by omega, by omega, by omega⟩
  subst hx
  obtain ⟨e1, e2, e3, e4⟩ := bytes32_lowfirst a b c d ha hb hc hd
  obtain ⟨f1, f2, f3, f4⟩ := bytes32_highfirst a b c d ha hb hc hd
  unfold byteswap32
  rw [e1, e2, e3, e4, f1, f2, f3, f4]
  ring

/-- Disjoint low/high halves combined by `|` are just a sum. -/
lemma lor_shiftLeft_eq_add (a b w : Nat) (ha : a < 2 ^ w) :
    a ||| (b <<< w) = a + b * 2 ^ w := by
  rw [Nat.shiftLeft_eq, Nat.lor_comm, Nat.mul_comm b (2 ^ w),
    ← Nat.mul_add_lt_is_or ha, Nat.add_comm]

lemma and_ffff (x : Nat) : x &&& 0xffff = x % 65536 := by
  have h := Nat.and_pow_two_sub_one_eq_mod x 16
  norm_num at h
  exact h

lemma and_ffffffff (x : Nat) : x &&& 0xffffffff = x % 4294967296 := by
  have h := Nat.and_pow_two_sub_one_eq_mod x 32
  norm_num at h
  exact h

/-- Truncating a real fraction in [0,1) to a `W`-denominator fixed-point
numerator loses less than one quantum. -/
lemma floor_scaled_close (f : ℚ) (W : Nat) (hW : 0 < W) (h0 : 0 ≤ f)
    (h1 : f < 1) :
    Int.toNat ⌊f * (W : ℚ)⌋ < W ∧
      |((Int.toNat ⌊f * (W : ℚ)⌋ : ℕ) : ℚ) / (W : ℚ) - f| < 1 / (W : ℚ) := by
  have hWQ : (0 : ℚ) < (W : ℚ) := by exact_mod_cast hW
  have hnn : (0 : ℚ) ≤ f * (W : ℚ) := mul_nonneg h0 (le_of_lt hWQ)
  have hfl0 : (0 : ℤ) ≤ ⌊f * (W : ℚ)⌋ := Int.floor_nonneg.mpr hnn
  have hub : f * (W : ℚ) < (W : ℚ) := by
    calc f * (W : ℚ) < 1 * (W : ℚ) := by
          exact mul_lt_mul_of_pos_right h1 hWQ
      _ = (W : ℚ) := one_mul _
  have hfllt : ⌊f * (W : ℚ)⌋ < (W : ℤ) := by
    apply Int.floor_lt.mpr
    push_cast
    exact hub
  have htn : ((Int.toNat ⌊f * (W : ℚ)⌋ : ℕ) : ℤ) = ⌊f * (W : ℚ)⌋ :=
    Int.toNat_of_nonneg hfl0
  constructor
  · have : ((Int.toNat ⌊f * (W : ℚ)⌋ : ℕ) : ℤ) < (W : ℤ) := by
      rw [htn]; exact hfllt
    exact_mod_cast this
  · have hle : ((⌊f * (W : ℚ)⌋ : ℤ) : ℚ) ≤ f * (W : ℚ) := Int.floor_le _
    have hlt : f * (W : ℚ) < ((⌊f * (W : ℚ)⌋ : ℤ) : ℚ) + 1 :=
      Int.lt_floor_add_one _
    have hcast : ((Int.toNat ⌊f * (W : ℚ)⌋ : ℕ) : ℚ) = ((⌊f * (W : ℚ)⌋ : ℤ) : ℚ) := by
      exact_mod_cast congrArg (fun z : ℤ => (z : ℚ)) htn
    have hW0 : (W : ℚ) ≠ 0 := ne_of_gt hWQ
    have hinvpos : (0 : ℚ) < 1 / (W : ℚ) := by positivity
    have Hle : ((⌊f * (W : ℚ)⌋ : ℤ) : ℚ) / (W : ℚ) ≤ f := by
      rw [div_le_iff₀ hWQ]
      exact hle
    have Hgt : f - 1 / (W : ℚ) < ((⌊f * (W : ℚ)⌋ : ℤ) : ℚ) / (W : ℚ) := by
      rw [lt_div_iff₀ hWQ, sub_mul, one_div_mul_cancel hW0]
      linarith
    rw [hcast, abs_lt]
    exact ⟨by linarith, by linarith⟩

end SNTP

namespace SNTP

lemma generateTstamp32_decomp (s : Nat) (f : ℚ) :
    generateTstamp32 s f =
      byteswap16 s + byteswap16 (Int.toNat ⌊f * FRIC⌋ % 2 ^ 16) * 65536 := by
  unfold generateTstamp32
  have h := lor_shiftLeft_eq_add (byteswap16 s)
    (byteswap16 (Int.toNat ⌊f * FRIC⌋ % 2 ^ 16)) 16
    (by simpa using byteswap16_lt s)
  simpa using h

lemma generateTstamp64_decomp (s : Nat) (f : ℚ) :
    generateTstamp64 s f =
      byteswap32 s +
        byteswap32 (Int.toNat ⌊f * FRAC⌋ % 2 ^ 32) * 4294967296 := by
  unfold generateTstamp64
  have h := lor_shiftLeft_eq_add (byteswap32 s)
    (byteswap32 (Int.toNat ⌊f * FRAC⌋ % 2 ^ 32)) 32
    (by simpa using byteswap32_lt s)
  simpa using h

lemma getSeconds32_decomp (lo hi : Nat) (hlo : lo < 65536) :
    getSeconds32 (lo + hi * 65536) = byteswap16 lo := by
  unfold getSeconds32
  rw [Nat.shiftRight_zero, and_ffff]
  congr 1
  omega

lemma getSeconds64_decomp (lo hi : Nat) (hlo : lo < 4294967296) :
    getSeconds64 (lo + hi * 4294967296) = byteswap32 lo := by
  unfold getSeconds64
  rw [Nat.shiftRight_zero, and_ffffffff]
  congr 1
  omega

lemma getFraction32_decomp (lo hi : Nat) (hlo : lo < 65536)
    (hhi : hi < 65536) :
    getFraction32 (lo + hi * 65536) = ((byteswap16 hi : ℕ) : ℚ) / FRIC := by
  unfold getFraction32
  rw [Nat.shiftRight_eq_div_pow, and_ffff]
  congr 3
  omega

lemma getFraction64_decomp (lo hi : Nat) (hlo : lo < 4294967296)
    (hhi : hi < 4294967296) :
    getFraction64 (lo + hi * 4294967296) =
      ((byteswap32 hi : ℕ) : ℚ) / FRAC := by
  unfold getFraction64
  rw [Nat.shiftRight_eq_div_pow, and_ffffffff]
  congr 3
  omega

end SNTP

namespace SNTP

/-- Claim C3: for every in-range seconds value `s` and every real fraction
`f` in [0,1), `getSeconds(generateTstamp(s, f)) = s` exactly, and
`getFraction(generateTstamp(s, f))` equals `f` to within the width
quantization step — 2^-16 for the 32-bit timestamp and 2^-32 for the 64-bit
timestamp. -/
theorem tstamp_roundtrip :
    (∀ (s : Nat) (f : ℚ), s < 2 ^ 16 → 0 ≤ f → f < 1 →
        getSeconds32 (generateTstamp32 s f) = s ∧
        |getFraction32 (generateTstamp32 s f) - f| < 1 / 65536) ∧
      (∀ (s : Nat) (f : ℚ), s < 2 ^ 32 → 0 ≤ f → f < 1 →
        getSeconds64 (generateTstamp64 s f) = s ∧
        |getFraction64 (generateTstamp64 s f) - f| < 1 / 4294967296) := by
  constructor
  · intro s f hs h0 h1
    obtain ⟨hrawlt, hclose⟩ := floor_scaled_close f 65536 (by norm_num) h0 h1
    have hWQ : (((65536 : ℕ) : ℚ)) = FRIC := by
      unfold FRIC; norm_num
    have hraw : Int.toNat ⌊f * FRIC⌋ % 2 ^ 16 = Int.toNat ⌊f * FRIC⌋ := by
      rw [← hWQ] at *
      omega
    have hrawlt2 : Int.toNat ⌊f * FRIC⌋ % 2 ^ 16 < 65536 := by omega
    constructor
    · rw [generateTstamp32_decomp, getSeconds32_decomp _ _ (byteswap16_lt s),
        byteswap16_involutive s (by omega)]
    · rw [generateTstamp32_decomp,
        getFraction32_decomp _ _ (byteswap16_lt s) (byteswap16_lt _),
        byteswap16_involutive _ hrawlt2, hraw, ← hWQ]
      exact hclose
  · intro s f hs h0 h1
    obtain ⟨hrawlt, hclose⟩ := floor_scaled_close f 4294967296 (by norm_num) h0 h1
    have hWQ : (((4294967296 : ℕ) : ℚ)) = FRAC := by
      unfold FRAC; norm_num
    have hraw : Int.toNat ⌊f * FRAC⌋ % 2 ^ 32 = Int.toNat ⌊f * FRAC⌋ := by
      rw [← hWQ] at *
      omega
    have hrawlt2 : Int.toNat ⌊f * FRAC⌋ % 2 ^ 32 < 4294967296 := by omega
    constructor
    · rw [generateTstamp64_decomp, getSeconds64_decomp _ _ (byteswap32_lt s),
        byteswap32_involutive s (by omega)]
    · rw [generateTstamp64_decomp,
        getFraction64_decomp _ _ (byteswap32_lt s) (byteswap32_lt _),
        byteswap32_involutive _ hrawlt2, hraw, ← hWQ]
      exact hclose

/-- Witness for C3: the round-trip law instantiated at concrete inputs for
both widths (s = 3, f = 1/4 at 32 bits; s = 70000, f = 3/8 at 64 bits). -/
theorem tstamp_roundtrip_witness :
    getSeconds32 (generateTstamp32 3 (1 / 4)) = 3 ∧
      |getFraction32 (generateTstamp32 3 (1 / 4)) - 1 / 4| < 1 / 65536 ∧
      getSeconds64 (generateTstamp64 70000 (3 / 8)) = 70000 ∧
      |getFraction64 (generateTstamp64 70000 (3 / 8)) - 3 / 8| < 1 / 4294967296 := by
  obtain ⟨h1, h2⟩ := tstamp_roundtrip.1 3 (1 / 4) (by norm_num) (by norm_num)
    (by norm_num)
  obtain ⟨h3, h4⟩ := tstamp_roundtrip.2 70000 (3 / 8) (by norm_num)
    (by norm_num) (by norm_num)
  exact ⟨h1, h2, h3, h4⟩

end SNTP

namespace SNTP

/-- The datagram channel as seen by `receive_server_reply`:
`parsePacket i` is the size reported by `_datagram.parsePacket()` at the
i-th polling iteration (0 = nothing arrived yet); `readData` is the packet
content a successful `read` deserializes into the caller buffer;
`readCount` is the byte count `read` reports. -/
structure udp_channel where
  parsePacket : Nat → Nat
  readData : ntp_packet
  readCount : Nat

/-- The `do { rply_size = parsePacket(); if != 0 break; delay(1); }
while (++ms_cycles < timeout)` loop of
`NTPMessageTransport::receive_server_reply` (starting at iteration `i`).
Returns (number of polls performed so far counting from iteration 0,
final `rply_size`). -/
def pollLoop (parse : Nat → Nat) (timeout i : Nat) : Nat × Nat :=
  let sz := parse i
  if sz ≠ 0 then (i + 1, sz)
  else if i + 1 < timeout then pollLoop parse timeout (i + 1)
  else (i + 1, 0)
termination_by timeout - i

/-- Model of `NTPMessageTransport::receive_server_reply` (MessageTransport.cpp lines
270–305): argument check, bounded polling loop, short-datagram check, then
the read into the caller buffer.  The returned pair is (errno outcome,
contents of the caller `ntp_reply` buffer after the call); the buffer is
only written by the `read` step, which happens after the size check. -/
def receive_server_reply (ch : udp_channel) (ntp_reply : ntp_packet)
    (timeout : Nat) : Option Errno × ntp_packet :=
  if timeout = 0 then (some Errno.EINVAL, ntp_reply)
  else
    let rply_size := (pollLoop ch.parsePacket timeout 0).2
    if rply_size < NTP_PACKET_SIZE then (some Errno.EPROTONOSUPPORT, ntp_reply)
    else if ch.readCount ≠ NTP_PACKET_SIZE then
      (some Errno.EOVERFLOW, ch.readData)
    else (none, ch.readData)

/-- If no datagram ever arrives, the polling loop runs its full budget:
exactly `timeout` polls, ending with size 0. -/
lemma pollLoop_never (parse : Nat → Nat) (hz : ∀ j, parse j = 0) :
    ∀ n timeout i, timeout - i = n → i < timeout →
      pollLoop parse timeout i = (timeout, 0) := by
  intro n
  induction n with
  | zero => intro timeout i hni hi; omega
  | succ m ih =>
    intro timeout i hni hi
    rw [pollLoop]
    simp only [hz i, ne_eq, not_true_eq_false, if_false, ite_not]
    by_cases hlt : i + 1 < timeout
    · simp only [if_pos hlt]
      exact ih timeout (i + 1) (by omega) hlt
    · simp only [if_neg hlt]
      have : i + 1 = timeout := by omega
      rw [this]

/-- If the first nonzero poll result appears at iteration `k < timeout`,
the loop stops there with that size. -/
lemma pollLoop_first (parse : Nat → Nat) (timeout k : Nat)
    (hk : k < timeout) (hnz : parse k ≠ 0)
    (hbefore : ∀ j, j < k → parse j = 0) :
    ∀ n i, k - i = n → i ≤ k →
      pollLoop parse timeout i = (k + 1, parse k) := by
  intro n
  induction n with
  | zero =>
    intro i hni hik
    have hik2 : i = k := by omega
    subst hik2
    rw [pollLoop]
    simp [hnz]
  | succ m ih =>
    intro i hni hik
    have hiklt : i < k := by omega
    rw [pollLoop]
    simp only [hbefore i hiklt, ne_eq, not_true_eq_false, if_false, ite_not]
    have hlt : i + 1 < timeout := by omega
    simp only [if_pos hlt]
    exact ih (i + 1) (by omega) (by omega)

/-- Claim C6: if no datagram ever arrives, `receive_server_reply` polls
exactly `timeout` times (the engine passes `TIMEOUT = 1024`), then fails
with EPROTONOSUPPORT (ProtocolMismatch) leaving the caller buffer
untouched; it neither fails earlier nor loops forever, and the very same
errno is the one reported when a too-small datagram arrives. -/
theorem timeout_polls_budget_then_protocol_mismatch
    (ch : udp_channel) (buf : ntp_packet) (timeout : Nat)
    (ht : 0 < timeout) (hz : ∀ j, ch.parsePacket j = 0) :
    (pollLoop ch.parsePacket timeout 0).1 = timeout ∧
      receive_server_reply ch buf timeout =
        (some Errno.EPROTONOSUPPORT, buf) ∧
      TIMEOUT = 1024 ∧
      (∀ (ch2 : udp_channel) (buf2 : ntp_packet) (t2 : Nat), 0 < t2 →
        (pollLoop ch2.parsePacket t2 0).2 < NTP_PACKET_SIZE →
        (receive_server_reply ch2 buf2 t2).1 = some Errno.EPROTONOSUPPORT) := by
  have hloop := pollLoop_never ch.parsePacket hz timeout timeout 0 (by omega)
    (by omega)
  refine ⟨by rw [hloop], ?_, rfl, ?_⟩
  · unfold receive_server_reply
    rw [if_neg (by omega), hloop]
    norm_num [NTP_PACKET_SIZE]
  · intro ch2 buf2 t2 ht2 hsmall
    unfold receive_server_reply
    rw [if_neg (by omega), if_pos hsmall]

/-- Witness for C6: a channel that never delivers, polled with budget 3. -/
theorem timeout_polls_budget_then_protocol_mismatch_witness :
    (pollLoop (fun _ => 0) 3 0).1 = 3 ∧
      receive_server_reply ⟨fun _ => 0, zero_packet, 48⟩
        { zero_packet with stratum := 9 } 3 =
        (some Errno.EPROTONOSUPPORT, { zero_packet with stratum := 9 }) := by
  obtain ⟨h1, h2, h3, h4⟩ := timeout_polls_budget_then_protocol_mismatch
    ⟨fun _ => 0, zero_packet, 48⟩ { zero_packet with stratum := 9 } 3
    (by norm_num) (fun _ => rfl)
  exact ⟨h1, h2⟩

/-- Claim C9: when the first datagram to arrive (at some poll `k` within the
budget) carries fewer bytes than the fixed packet size,
`receive_server_reply` fails with EPROTONOSUPPORT and returns the caller
buffer exactly as it was — the rejected reply is never read into it. -/
theorem short_datagram_rejected_before_read
    (ch : udp_channel) (buf : ntp_packet) (timeout k : Nat)
    (hk : k < timeout) (hnz : ch.parsePacket k ≠ 0)
    (hbefore : ∀ j, j < k → ch.parsePacket j = 0)
    (hshort : ch.parsePacket k < NTP_PACKET_SIZE) :
    receive_server_reply ch buf timeout =
      (some Errno.EPROTONOSUPPORT, buf) := by
  have hloop := pollLoop_first ch.parsePacket timeout k hk hnz hbefore k 0
    (by omega) (by omega)
  unfold receive_server_reply
  rw [if_neg (by omega), hloop]
  simp only [if_pos hshort]

/-- Witness for C9: a 20-byte datagram arriving at the third poll is
rejected with the caller buffer (here with a recognisable nonzero field)
returned unchanged. -/
theorem short_datagram_rejected_before_read_witness :
    receive_server_reply
      ⟨fun i => if i = 2 then 20 else 0, zero_packet, 48⟩
      { zero_packet with refid := 4242 } 10 =
      (some Errno.EPROTONOSUPPORT, { zero_packet with refid := 4242 }) := by
  exact short_datagram_rejected_before_read _ _ 10 2 (by norm_num)
    (by norm_num) (fun j hj => by interval_cases j <;> rfl) (by decide)

end SNTP

namespace SNTP

/-- Model of `strcmp(a, b) == 0` on byte sequences: compare byte-for-byte and succeed
only when both strings reach their NUL terminator together.  Reading past
the end of the listed bytes yields 0 (the terminator that every C string
carries). -/
def cstrEq : List Nat → List Nat → Bool
  | [], b => b.headD 0 == 0
  | x :: a, b =>
    if x == b.headD 0 then
      (if x == 0 then true else cstrEq a b.tail)
    else false

/-- The fourteen `kod_table[i].code` entries of
`NTPMessageTransport::printKissCode` (MessageTransport.cpp lines 36–50),
each a `char code[5]`: four ASCII characters plus the NUL terminator.
In order: ACST, AUTH, AUTO, BCST, CRYP, DENY, DROP, RSTR, INIT, MCST,
NKEY, RATE, RMOT, STEP. -/
def kod_codes : List (List Nat) :=
  [ [65, 67, 83, 84, 0],
    [65, 85, 84, 72, 0],
    [65, 85, 84, 79, 0],
    [66, 67, 83, 84, 0],
    [67, 82, 89, 80, 0],
    [68, 69, 78, 89, 0],
    [68, 82, 79, 80, 0],
    [82, 83, 84, 82, 0],
    [73, 78, 73, 84, 0],
    [77, 67, 83, 84, 0],
    [78, 75, 69, 89, 0],
    [82, 65, 84, 69, 0],
    [82, 77, 79, 84, 0],
    [83, 84, 69, 80, 0] ]

/-- Model of `NTPMessageTransport::printKissCode` reduced to its returned value:
the loop scans the table and `valid_code` becomes true exactly when
`strcmp(code, kod_table[i].code) == 0` for some entry (the message printing
has no effect on the result).  `code` is the byte sequence readable at the
passed pointer. -/
def printKissCode (code : List Nat) : Bool :=
  kod_codes.any (fun entry => cstrEq code entry)

/-- Claim C8 evaluation at the failing input: a NUL-terminated "RATE" is
recognized, but a code whose first four bytes are likewise exactly "RATE"
followed by a nonzero byte (as for a wire reference-id field, which is not
NUL-terminated and is followed in the packet by the reference timestamp) is
reported unknown (`false`), because `strcmp` also compares the fifth byte.
This contradicts the claim that exactly the first four bytes decide a
match. -/
theorem kiss_code_match_depends_on_fifth_byte :
    printKissCode [82, 65, 84, 69, 0] = true ∧
      List.take 4 [82, 65, 84, 69, 88] = List.take 4 [82, 65, 84, 69, 0] ∧
      printKissCode [82, 65, 84, 69, 88] = false := by
  decide

end SNTP

namespace SNTP

/-- C truncation toward zero, as performed by `modf` on the integral part
and by the final cast `(time_t)unix_time_d_intpart`. -/
def ratTrunc (q : ℚ) : Int :=
  if q < 0 then -Int.floor (-q) else Int.floor q

/-- The T1 timestamp `NTPClient::time` constructs (ntpclient.cpp lines
64–71): seconds = `ERA_OFFSET0_1_JAN_1970 + 1637244065` (a marked test
offset), narrowed to the uint32 seconds argument, fraction 0.0. -/
def t1_initial : Nat :=
  generateTstamp64 ((ERA_OFFSET0_1_JAN_1970 + 1637244065) % 2 ^ 32) 0

/-- Model of `NTPClient::time` (ntpclient.cpp lines 58–134).  Abstracted inputs:
`packetExchange` is the transport behaviour, `g` the (uninitialized) stack
packet before `xmt` is set, `millis_delta` the measured milliseconds of the
exchange, `log_ms` the milliseconds spent logging before `unix_time_d` is
read.  Result: (returned `time_t` value, value written through `tloc` —
`none` when nothing is written; `tloc_nonnull` says whether the caller
passed a non-null `tloc`).  The serial prints and the final `delay` to the
next full second do not affect either component. -/
def NTPClient.time (packetExchange : ntp_packet → Except Errno ntp_packet)
    (g : ntp_packet) (millis_delta log_ms : Nat) (tloc_nonnull : Bool) :
    Int × Option Int :=
  let ntp_time : Nat := ERA_OFFSET0_1_JAN_1970 + 1637244065
  let t1 : Nat := t1_initial
  let packet : ntp_packet := { g with xmt := t1 }
  match on_wire_exchange packetExchange packet with
  | Except.error _ => (-1, none)
  | Except.ok reply =>
    let t2 := reply.rec_ts
    let t3 := reply.xmt
    let t1d : ℚ := (getSeconds64 t1 : ℚ) + 0
    let t4d : ℚ := t1d + (millis_delta : ℚ) / 1000
    let t2d : ℚ := (getSeconds64 t2 : ℚ) + getFraction64 t2
    let t3d : ℚ := (getSeconds64 t3 : ℚ) + getFraction64 t3
    let offset : ℚ := clock_offset t1d t2d t3d t4d
    let unix_time_d : ℚ :=
      1 + offset + (ntp_time : ℚ) - (ERA_OFFSET0_1_JAN_1970 : ℚ) +
        (log_ms : ℚ) / 1000
    let unix_time : Int := ratTrunc unix_time_d
    (unix_time, if tloc_nonnull then some unix_time else none)

/-- Claim C10: whenever the on-wire exchange fails, `NTPClient::time`
returns -1 and writes nothing through `tloc`; on a successful exchange the
value written through a non-null `tloc` is exactly the returned value (and
nothing is written when `tloc` is null). -/
theorem time_tloc_write_discipline
    (pe : ntp_packet → Except Errno ntp_packet) (g : ntp_packet)
    (millis_delta log_ms : Nat) (tl : Bool) :
    (∀ e, on_wire_exchange pe { g with xmt := t1_initial } = Except.error e →
        NTPClient.time pe g millis_delta log_ms tl = (-1, none)) ∧
      (∀ r, on_wire_exchange pe { g with xmt := t1_initial } = Except.ok r →
        (NTPClient.time pe g millis_delta log_ms tl).2 =
          if tl then some (NTPClient.time pe g millis_delta log_ms tl).1
          else none) := by
  constructor
  · intro e he
    simp only [NTPClient.time, he]
  · intro r hr
    simp only [NTPClient.time, hr]

/-- Witness for C10: a transport failure yields (-1, no write); a concrete
valid reply yields a `tloc` write equal to the returned value. -/
theorem time_tloc_write_discipline_witness :
    NTPClient.time (fun _ => Except.error Errno.ENETDOWN) zero_packet 0 0 true
        = (-1, none) ∧
      (NTPClient.time
          (fun _ =>
            Except.ok { zero_packet with
              li_vn_mode := 0x24, stratum := 3, org := t1_initial,
              rec_ts := 7, xmt := 9 })
          zero_packet 250 0 true).2 =
        some (NTPClient.time
          (fun _ =>
            Except.ok { zero_packet with
              li_vn_mode := 0x24, stratum := 3, org := t1_initial,
              rec_ts := 7, xmt := 9 })
          zero_packet 250 0 true).1 := by
  constructor
  · exact (time_tloc_write_discipline _ zero_packet 0 0 true).1
      Errno.ENETDOWN rfl
  · have hval : validate
        { zero_packet with
          li_vn_mode := 0x24, stratum := 3, org := t1_initial,
          rec_ts := 7, xmt := 9 } t1_initial = none := by
      unfold validate
      rw [if_neg (by decide), if_neg (by decide), if_neg (by decide),
        if_neg (by decide), if_neg (by decide), if_neg (fun h => h rfl)]
    have hok : on_wire_exchange
        (fun _ =>
          Except.ok { zero_packet with
            li_vn_mode := 0x24, stratum := 3, org := t1_initial,
            rec_ts := 7, xmt := 9 })
        { zero_packet with xmt := t1_initial } =
        Except.ok { zero_packet with
          li_vn_mode := 0x24, stratum := 3, org := t1_initial,
          rec_ts := 7, xmt := 9 } := by
      simp only [on_wire_exchange, hval]
    have h := (time_tloc_write_discipline
      (fun _ =>
        Except.ok { zero_packet with
          li_vn_mode := 0x24, stratum := 3, org := t1_initial,
          rec_ts := 7, xmt := 9 })
      zero_packet 250 0 true).2
      { zero_packet with
        li_vn_mode := 0x24, stratum := 3, org := t1_initial,
        rec_ts := 7, xmt := 9 }
      hok
    simpa using h

end SNTP
